import Mathlib

/-!
# Info::Media::InnerWidget

A shallow embedding of `Telegram/SourceFiles/info/media/info_media_inner_widget.cpp`:
the media tab of the info panel.  The widget is a record of its member variables,
every member function is a function on that record, and a dereference of a null
child pointer (or of an empty optional) is the failure `none`.

Collaborators that live outside the file (the list widget, the slider, the search
field, the style constants, the controller) are represented by the data the file
reads from them; what they compute on their own is supplied by `Env`.

Widths, heights and positions are C++ `int`: they are `Int` here, and the result of
every addition and subtraction the file performs is reduced to the 32-bit two's
complement range by `toInt`.  A reactive value (`wrapValue()`, `heightValue()`)
delivers its current value to a new subscriber at once and every later change after
that.
-/

namespace Info.Media

/-- Modelled from the spec: the enumeration `InnerWidget::Type` is declared outside
this file; the data model lists Photo, Video, File, MusicFile, Link, VoiceFile and
the reserved RoundFile. -/
inductive MediaType where
  | Photo
  | Video
  | File
  | MusicFile
  | Link
  | VoiceFile
  | RoundFile
deriving DecidableEq

/-- Modelled from the spec: the enumeration `Wrap` is declared outside this file; the
data model has two presentation modes, Embedded and SideBySide (`Wrap::Side`). -/
inductive Wrap where
  | Embedded
  | Side
deriving DecidableEq

/-- Source lines 43-50: the three cases of the switch, `base::none` otherwise. -/
def TypeToTabIndex (type : MediaType) : Option Int :=
  match type with
  | MediaType.Photo => some 0
  | MediaType.Video => some 1
  | MediaType.File => some 2
  | _ => none

/-- Source lines 52-59: the three cases of the switch; `Unexpected(...)` aborts, which
is the failure `none`. -/
def TabIndexToType (index : Int) : Option MediaType :=
  if index = 0 then some MediaType.Photo
  else if index = 1 then some MediaType.Video
  else if index = 2 then some MediaType.File
  else none

/-- Modelled from the spec: the per-type view state held by a memento and by a list
widget (scroll offset and selection set); the list widget and the memento are declared
outside this file. -/
structure ViewSnapshot where
  scrollOffset : Int
  selection : List Nat
deriving DecidableEq

/-- The state of a list that nothing has been restored into. -/
def ViewSnapshot.empty : ViewSnapshot := { scrollOffset := 0, selection := [] }

/-- The memento of the media section: the peer it is for, its media type
(`memento->section().mediaType()`), and the view state it carries. -/
structure Memento where
  peerId : Nat
  migratedPeerId : Nat
  mediaType : MediaType
  snapshot : ViewSnapshot
deriving DecidableEq

/-- The constructor `Memento(peerId, migratedPeerId, type)` of source lines 176-179:
a memento that carries no saved view state. -/
def Memento.fresh (peerId migratedPeerId : Nat) (type : MediaType) : Memento :=
  { peerId := peerId, migratedPeerId := migratedPeerId, mediaType := type,
    snapshot := ViewSnapshot.empty }

/-- What the file reads from `_controller`: the wrap value, the media type of the
section, the peer ids, and whether `searchFieldController()` is non-null. -/
structure Controller where
  wrap : Wrap
  mediaType : MediaType
  peerId : Nat
  migratedPeerId : Nat
  hasSearchFieldController : Bool
deriving DecidableEq

/-- Geometry of a child widget: its width, its `heightNoMargins()` and the vertical
position given to it by `moveToLeft(0, top)`. -/
structure Geometry where
  width : Int
  height : Int
  y : Int
deriving DecidableEq

/-- The list widget `_list` points to: `id` is the identity of the object (the serial
number of its construction), `mediaType` the section type it was constructed for,
`state` what `saveState` would snapshot and `restoreState` overwrites. -/
structure ListWidget where
  id : Nat
  mediaType : MediaType
  state : ViewSnapshot
  geometry : Geometry
deriving DecidableEq

/-- What the collaborators decide on their own: `st::lineWidth`, the geometry of a
widget that has just been constructed, the height each child takes at a given width,
and `Controller::validateMementoPeer`. -/
structure Env where
  lineWidth : Int
  freshWidth : Int
  freshHeight : Int
  otherTypesHeight : Int → Int
  searchFieldHeight : Int → Int
  listHeight : MediaType → Int → Int
  validateMementoPeer : Controller → Memento → Bool

/-- The member variables of `InnerWidget`, its own geometry (`width()`, `height()`),
and two counters that belong to the model only: `nextListId` numbers the list widgets
constructed so far, `recounts` counts the passes of `recountHeight`.
`otherTabs` holds the active section of the slider. -/
structure InnerWidget where
  controller : Controller
  width : Int
  height : Int
  list : Option ListWidget
  otherTypes : Option Geometry
  otherTabs : Option Int
  otherTabsShadow : Option Geometry
  searchField : Option Geometry
  inResize : Bool
  nextListId : Nat
  recounts : Nat
deriving DecidableEq

/-- The value a C++ `int` holds after an arithmetic operation whose exact result is
`x`: the representative of `x` modulo 2^32 in the range from -2^31 to 2^31 - 1. -/
def toInt (x : Int) : Int := (x + 2147483648) % 4294967296 - 2147483648

namespace InnerWidget

/-- Source lines 185-187. -/
def type (s : InnerWidget) : MediaType := s.controller.mediaType

/-- Source lines 302-318.  The three `if` blocks in order; `_otherTabsShadow->` on a
null pointer is the failure `none`.  Each `top += a - b` is an `int` subtraction
followed by an `int` addition.  Returns the widget with the children moved and the
value of `top`. -/
def recountHeight (env : Env) (s : InnerWidget) : Option (InnerWidget × Int) :=
  let top : Int := 0
  let afterOtherTypes : Option (InnerWidget × Int) :=
    match s.otherTypes with
    | some ot =>
      match s.otherTabsShadow with
      | some sh =>
        let top1 := toInt (top + toInt (ot.height - env.lineWidth))
        some ({ s with otherTypes := some { ot with y := top },
                       otherTabsShadow := some { sh with y := top1 } }, top1)
      | none => none
    | none => some (s, top)
  match afterOtherTypes with
  | none => none
  | some (s1, top1) =>
    let (s2, top2) : InnerWidget × Int :=
      match s1.searchField with
      | some sf =>
        ({ s1 with searchField := some { sf with y := top1 } },
          toInt (top1 + toInt (sf.height - env.lineWidth)))
      | none => (s1, top1)
    let (s3, top3) : InnerWidget × Int :=
      match s2.list with
      | some l =>
        ({ s2 with list := some { l with geometry := { l.geometry with y := top2 } } },
          toInt (top2 + l.geometry.height))
      | none => (s2, top2)
    some ({ s3 with recounts := s3.recounts + 1 }, top3)

/-- Source lines 295-300: nothing while `_inResize`, else `resize(width(), recountHeight())`. -/
def refreshHeight (env : Env) (s : InnerWidget) : Option InnerWidget :=
  if s.inResize then some s
  else
    match recountHeight env s with
    | some (s1, h) => some { s1 with height := h }
    | none => none

/-- Source lines 227-238: a new view resized to `width()` when the controller has a
search field controller and `_otherTabs` is set, `nullptr` otherwise. -/
def refreshSearchField (env : Env) (s : InnerWidget) : InnerWidget :=
  if s.controller.hasSearchFieldController && s.otherTabs.isSome then
    { s with
      searchField := some { width := s.width, height := env.searchFieldHeight s.width, y := 0 } }
  else
    { s with searchField := none }

/-- Source lines 240-259: refreshes the search field, constructs the list widget for the
current section, and subscribes `refreshHeight` to its `heightValue()`, which delivers
the current height at once, while `_list` is still the previous pointer.  The scroll
and selection streams carry no state of this widget.  Returns the new list; the caller
assigns it. -/
def setupList (env : Env) (s : InnerWidget) : Option (InnerWidget × ListWidget) :=
  let s1 := refreshSearchField env s
  let result : ListWidget :=
    { id := s1.nextListId, mediaType := s1.type, state := ViewSnapshot.empty,
      geometry := { width := env.freshWidth,
                    height := env.listHeight s1.type env.freshWidth, y := 0 } }
  let s2 := { s1 with nextListId := s1.nextListId + 1 }
  match refreshHeight env s2 with
  | some s3 => some (s3, result)
  | none => none

/-- Source lines 261-263: `_list->saveState(memento)`; the list writes its state into
the memento. -/
def saveState (s : InnerWidget) (memento : Memento) : Option Memento :=
  match s.list with
  | some l => some { memento with snapshot := l.state }
  | none => none

/-- Source lines 265-267: `_list->restoreState(memento)`; the list takes the state the
memento carries. -/
def restoreState (s : InnerWidget) (memento : Memento) : Option InnerWidget :=
  match s.list with
  | some l => some { s with list := some { l with state := memento.snapshot } }
  | none => none

/-- The call `_list->resizeToWidth(w)`: the list takes the width and the height it has
at that width; a change of its height reaches the `heightValue()` subscription of
`setupList`, that is `refreshHeight`. -/
def listResizeToWidth (env : Env) (s : InnerWidget) (w : Int) : Option InnerWidget :=
  match s.list with
  | some l =>
    let h := env.listHeight l.mediaType w
    let s1 := { s with list := some { l with geometry := { l.geometry with width := w, height := h } } }
    if h = l.geometry.height then some s1 else refreshHeight env s1
  | none => none

/-- The call `_otherTypes->resizeToWidth(w)`: as for the list, with the subscription of
source lines 99-102. -/
def otherTypesResizeToWidth (env : Env) (s : InnerWidget) (w : Int) : Option InnerWidget :=
  match s.otherTypes with
  | some ot =>
    let h := env.otherTypesHeight w
    let s1 := { s with otherTypes := some { ot with width := w, height := h } }
    if h = ot.height then some s1 else refreshHeight env s1
  | none => none

/-- Source lines 212-225.  Nothing is saved before `setSection`; `show()` and `raise()`
change no modelled state; `*TypeToTabIndex(type())` on an empty optional and `->` on a
null pointer are failures. -/
def switchToTab (env : Env) (s : InnerWidget) (memento : Memento) : Option InnerWidget :=
  let s1 := { s with controller := { s.controller with mediaType := memento.mediaType } }
  match setupList env s1 with
  | none => none
  | some (s2, l) =>
    let s3 := { s2 with list := some l }
    match restoreState s3 memento with
    | none => none
    | some s4 =>
      match listResizeToWidth env s4 s4.width with
      | none => none
      | some s5 =>
        match refreshHeight env s5 with
        | none => none
        | some s6 =>
          if s6.otherTypes.isSome then
            match s6.otherTabsShadow, s6.otherTabs, TypeToTabIndex s6.type with
            | some _, some _, some i => some { s6 with otherTabs := some i }
            | _, _, _ => none
          else some s6

/-- Source lines 159-170: the slider is added with the active section
`*TypeToTabIndex(type())`. -/
def createTabs (s : InnerWidget) : Option InnerWidget :=
  match s.otherTypes, TypeToTabIndex s.type with
  | some _, some i => some { s with otherTabs := some i }
  | _, _ => none

/-- Source lines 171-182: the handler of `sectionActivated()`, which lives as long as
`_otherTabs`. -/
def sectionActivated (env : Env) (s : InnerWidget) (index : Int) : Option InnerWidget :=
  match TabIndexToType index with
  | none => none
  | some newType =>
    if s.type ≠ newType then
      switchToTab env s (Memento.fresh s.controller.peerId s.controller.migratedPeerId newType)
    else some s

/-- Source lines 87-103: shadow, layout, buttons, divider, tabs, and the subscription
of `refreshHeight` to `_otherTypes->heightValue()`, which delivers the current height
at once.  The buttons and the divider only contribute to the height of the layout. -/
def createOtherTypes (env : Env) (s : InnerWidget) : Option InnerWidget :=
  let s1 := { s with
    otherTabsShadow := some { width := env.freshWidth, height := env.lineWidth, y := 0 } }
  let s2 := { s1 with otherTabs := none }
  let s3 := { s2 with
    otherTypes := some { width := env.freshWidth,
                         height := env.otherTypesHeight env.freshWidth, y := 0 } }
  match createTabs s3 with
  | none => none
  | some s4 => refreshHeight env s4

/-- Source lines 74-84: the handler of `wrapValue()`. -/
def setupOtherTypesNext (env : Env) (s : InnerWidget) (value : Wrap) : Option InnerWidget :=
  let branch : Option InnerWidget :=
    if value = Wrap.Side ∧ (TypeToTabIndex s.type).isSome then
      createOtherTypes env s
    else
      refreshHeight env { s with otherTabs := none, otherTypes := none }
  match branch with
  | none => none
  | some s1 => some (refreshSearchField env s1)

/-- Source lines 72-85: the subscription to `wrapValue()` runs the handler at once with
the current wrap. -/
def setupOtherTypes (env : Env) (s : InnerWidget) : Option InnerWidget :=
  setupOtherTypesNext env s s.controller.wrap

/-- Source lines 63-70: the constructor. -/
def create (env : Env) (controller : Controller) : Option InnerWidget :=
  let s0 : InnerWidget :=
    { controller := controller, width := env.freshWidth, height := env.freshHeight,
      list := none, otherTypes := none, otherTabs := none, otherTabsShadow := none,
      searchField := none, inResize := false, nextListId := 0, recounts := 0 }
  match setupList env s0 with
  | none => none
  | some (s1, l) => setupOtherTypes env { s1 with list := some l }

/-- Source lines 195-210. -/
def showInternal (env : Env) (s : InnerWidget) (memento : Memento) :
    Option (InnerWidget × Bool) :=
  if !env.validateMementoPeer s.controller memento then some (s, false)
  else
    let mementoType := memento.mediaType
    if mementoType = s.type then
      match restoreState s memento with
      | some s1 => some (s1, true)
      | none => none
    else if s.otherTypes.isSome then
      if (TypeToTabIndex mementoType).isSome then
        match switchToTab env s memento with
        | some s1 => some (s1, true)
        | none => none
      else some (s, false)
    else some (s, false)

/-- Source lines 280-293: `_inResize` is set on entry and cleared by the guard on
return; in between the children are resized and `recountHeight` is returned. -/
def resizeGetHeight (env : Env) (s : InnerWidget) (newWidth : Int) :
    Option (InnerWidget × Int) :=
  let s1 := { s with inResize := true }
  let afterOtherTypes : Option InnerWidget :=
    if s1.otherTypes.isSome then
      match otherTypesResizeToWidth env s1 newWidth with
      | none => none
      | some s2 =>
        match s2.otherTabsShadow with
        | some sh => some { s2 with otherTabsShadow := some { sh with width := newWidth } }
        | none => none
    else some s1
  match afterOtherTypes with
  | none => none
  | some s3 =>
    let s4 : InnerWidget :=
      match s3.searchField with
      | some sf =>
        { s3 with
          searchField := some { sf with width := newWidth,
                                        height := env.searchFieldHeight newWidth } }
      | none => s3
    match listResizeToWidth env s4 newWidth with
    | none => none
    | some s5 =>
      match recountHeight env s5 with
      | none => none
      | some (s6, h) => some ({ s6 with inResize := false }, h)

/-- The wrap of the controller changes to `value` and the subscription of
`setupOtherTypes` runs. -/
def wrapChanged (env : Env) (s : InnerWidget) (value : Wrap) : Option InnerWidget :=
  setupOtherTypesNext env { s with controller := { s.controller with wrap := value } } value

/-- Modelled from the spec: the inbound call `resizeToWidth(w) -> newHeight` of the base
widget class, declared outside this file: it asks `resizeGetHeight` and takes the size. -/
def resizeToWidth (env : Env) (s : InnerWidget) (w : Int) : Option InnerWidget :=
  match resizeGetHeight env s w with
  | some (s1, h) => some { s1 with width := w, height := h }
  | none => none

/-- The list reports a new height (its content changed): the subscription of
`setupList` runs `refreshHeight`. -/
def listHeightChanged (env : Env) (s : InnerWidget) (h : Int) : Option InnerWidget :=
  match s.list with
  | some l => refreshHeight env { s with list := some { l with geometry := { l.geometry with height := h } } }
  | none => none

/-- The layout of the other types reports a new height: the subscription of
`createOtherTypes` runs `refreshHeight`. -/
def otherTypesHeightChanged (env : Env) (s : InnerWidget) (h : Int) : Option InnerWidget :=
  match s.otherTypes with
  | some ot => refreshHeight env { s with otherTypes := some { ot with height := h } }
  | none => none

end InnerWidget

/-- States of the widget that the constructor and the events reach. -/
inductive Reachable (env : Env) : InnerWidget → Prop where
  | create (c : Controller) (s : InnerWidget) :
      InnerWidget.create env c = some s → Reachable env s
  | wrapChanged (s s1 : InnerWidget) (value : Wrap) :
      Reachable env s → InnerWidget.wrapChanged env s value = some s1 → Reachable env s1
  | sectionActivated (s s1 : InnerWidget) (index : Int) :
      Reachable env s → s.otherTabs.isSome = true →
      InnerWidget.sectionActivated env s index = some s1 → Reachable env s1
  | showInternal (s s1 : InnerWidget) (memento : Memento) (b : Bool) :
      Reachable env s → InnerWidget.showInternal env s memento = some (s1, b) →
      Reachable env s1
  | resizeToWidth (s s1 : InnerWidget) (w : Int) :
      Reachable env s → InnerWidget.resizeToWidth env s w = some s1 → Reachable env s1
  | listHeightChanged (s s1 : InnerWidget) (h : Int) :
      Reachable env s → InnerWidget.listHeightChanged env s h = some s1 → Reachable env s1
  | otherTypesHeightChanged (s s1 : InnerWidget) (h : Int) :
      Reachable env s → InnerWidget.otherTypesHeightChanged env s h = some s1 →
      Reachable env s1

/-- A concrete environment: line width 1, fresh widgets 100 by 30, the layout of the
other types 200 high, the search field 40 high, a list whose height depends on its
width, and every memento for the peer of the controller accepted. -/
def env0 : Env :=
  { lineWidth := 1, freshWidth := 100, freshHeight := 30,
    otherTypesHeight := fun _ => 200,
    searchFieldHeight := fun _ => 40,
    listHeight := fun _ w => 1000 - w,
    validateMementoPeer := fun c m => c.peerId == m.peerId && c.migratedPeerId == m.migratedPeerId }

/-- A controller in Side wrap showing photos, with a search field controller. -/
def sidePhoto : Controller :=
  { wrap := Wrap.Side, mediaType := MediaType.Photo, peerId := 7, migratedPeerId := 0,
    hasSearchFieldController := true }

/-- What laying out leaves alone in a list widget: identity, type, state and width. -/
def ListWidget.ident (l : ListWidget) : Nat × MediaType × ViewSnapshot × Int :=
  (l.id, l.mediaType, l.state, l.geometry.width)

/-- The part of the widget that `recountHeight` and `refreshHeight` never touch: which
children exist, the controller, the width, the flag, the active section. -/
structure Shape where
  controller : Controller
  width : Int
  inResize : Bool
  nextListId : Nat
  otherTabs : Option Int
  otherTypes : Bool
  otherTabsShadow : Bool
  searchField : Bool
  list : Option (Nat × MediaType × ViewSnapshot × Int)
deriving DecidableEq

/-- The shape of a widget. -/
def InnerWidget.shape (s : InnerWidget) : Shape :=
  { controller := s.controller, width := s.width, inResize := s.inResize,
    nextListId := s.nextListId, otherTabs := s.otherTabs,
    otherTypes := s.otherTypes.isSome, otherTabsShadow := s.otherTabsShadow.isSome,
    searchField := s.searchField.isSome, list := s.list.map ListWidget.ident }

/-- The invariant of the reachable states, on the shape: the list exists, is older
than the next list and is of the current type; no resize is running; the layout of
the other types exists exactly in Side wrap with a tab type; the slider exists with it
and shows the current type; the shadow exists with it; the search field exists
exactly when there is a search controller and the layout exists. -/
structure Shape.Inv (sh : Shape) : Prop where
  list_some : sh.list.isSome = true
  list_id : ∀ p, sh.list = some p → p.1 < sh.nextListId ∧ p.2.1 = sh.controller.mediaType
  not_inResize : sh.inResize = false
  strip : sh.otherTypes =
    (decide (sh.controller.wrap = Wrap.Side) && (TypeToTabIndex sh.controller.mediaType).isSome)
  tabs : sh.otherTabs = if sh.otherTypes = true then TypeToTabIndex sh.controller.mediaType else none
  shadow : sh.otherTypes = true → sh.otherTabsShadow = true
  search : sh.searchField = (sh.controller.hasSearchFieldController && sh.otherTypes)

/-- The widget the constructor builds for `sidePhoto` in `env0`. -/
def widget0 : InnerWidget :=
  { controller := sidePhoto, width := 100, height := 1099,
    list := some { id := 0, mediaType := MediaType.Photo, state := ViewSnapshot.empty,
                   geometry := { width := 100, height := 900, y := 199 } },
    otherTypes := some { width := 100, height := 200, y := 0 },
    otherTabs := some 0,
    otherTabsShadow := some { width := 100, height := 1, y := 199 },
    searchField := some { width := 100, height := 40, y := 0 },
    inResize := false, nextListId := 1, recounts := 2 }

/-- A controller in Embedded wrap showing videos, without a search field controller. -/
def embeddedVideo : Controller :=
  { wrap := Wrap.Embedded, mediaType := MediaType.Video, peerId := 7, migratedPeerId := 0,
    hasSearchFieldController := false }

/-- The widget the constructor builds for `embeddedVideo` in `env0`. -/
def widget1 : InnerWidget :=
  { controller := embeddedVideo, width := 100, height := 900,
    list := some { id := 0, mediaType := MediaType.Video, state := ViewSnapshot.empty,
                   geometry := { width := 100, height := 900, y := 0 } },
    otherTypes := none, otherTabs := none, otherTabsShadow := none, searchField := none,
    inResize := false, nextListId := 1, recounts := 2 }

/-- A view state that is not the empty one. -/
def scrolled : ViewSnapshot := { scrollOffset := 120, selection := [3] }

/-- A memento of the peer of `sidePhoto` for the given type, carrying `scrolled`. -/
def mementoOf (type : MediaType) : Memento :=
  { peerId := 7, migratedPeerId := 0, mediaType := type, snapshot := scrolled }

/-- The widget `widget0` after its list has taken the state `scrolled`. -/
def widget0Scrolled : InnerWidget :=
  { widget0 with
    list := some { id := 0, mediaType := MediaType.Photo, state := scrolled,
                   geometry := { width := 100, height := 900, y := 199 } } }

/-- The heights of the regions that are present, top to bottom: the layout of the other
types, the search field, the list. -/
def presentRegionHeights (s : InnerWidget) : List Int :=
  (s.otherTypes.map Geometry.height).toList ++
    ((s.searchField.map Geometry.height).toList ++
      (s.list.map (fun l => l.geometry.height)).toList)

/-- The total height in the words of the specification: the sum of the heights of the
present regions, minus one line width for each present region other than the first. -/
def stackedHeight (lineWidth : Int) (heights : List Int) : Int :=
  heights.sum - lineWidth * (heights.tail.length : Int)

/-- The range of a C++ `int`. -/
def fitsInt (x : Int) : Prop := -2147483648 ≤ x ∧ x ≤ 2147483647

/-- The amounts `recountHeight` adds to `top`, in order: height less line width for
the layout of the other types and for the search field, the height for the list. -/
def recountTerms (env : Env) (s : InnerWidget) : List Int :=
  (s.otherTypes.map (fun g => g.height - env.lineWidth)).toList ++
    ((s.searchField.map (fun g => g.height - env.lineWidth)).toList ++
      (s.list.map (fun l => l.geometry.height)).toList)

/-- The exact values of `top` after each addition, starting from `top`. -/
def runningTops (top : Int) (terms : List Int) : List Int :=
  match terms with
  | [] => []
  | x :: rest => (top + x) :: runningTops (top + x) rest

/-- No step of `recountHeight` leaves the range of `int`: every amount added and every
value of `top`, computed exactly, fits. -/
def recountFits (env : Env) (s : InnerWidget) : Prop :=
  ∀ x, x ∈ recountTerms env s ++ runningTops 0 (recountTerms env s) → fitsInt x

/-- The widget `widget0` with a list as high as the largest `int`. -/
def widgetTall : InnerWidget :=
  { widget0 with
    list := some { id := 0, mediaType := MediaType.Photo, state := ViewSnapshot.empty,
                   geometry := { width := 100, height := 2147483647, y := 199 } } }

/-! ## Frame lemmas and the invariant of the reachable states -/

theorem recountHeight_shape (env : Env) (s t : InnerWidget) (h : Int)
    (hr : InnerWidget.recountHeight env s = some (t, h)) :
    t.shape = s.shape ∧ t.recounts = s.recounts + 1 ∧ t.height = s.height := by
  rcases s with ⟨c, w, ht, l, ot, tabs, sh, sf, ir, n, r⟩
  cases ot <;> cases sh <;> cases sf <;> cases l <;>
    simp [InnerWidget.recountHeight] at hr <;>
    (obtain ⟨rfl, _⟩ := hr; simp [InnerWidget.shape, ListWidget.ident])

theorem recountHeight_isSome (env : Env) (s : InnerWidget)
    (hs : s.otherTypes.isSome = true → s.otherTabsShadow.isSome = true) :
    ∃ t h, InnerWidget.recountHeight env s = some (t, h) := by
  rcases s with ⟨c, w, ht, l, ot, tabs, sh, sf, ir, n, r⟩
  cases ot <;> cases sh <;> cases sf <;> cases l <;>
    simp [InnerWidget.recountHeight] at hs ⊢

theorem refreshHeight_shape (env : Env) (s t : InnerWidget)
    (hr : InnerWidget.refreshHeight env s = some t) : t.shape = s.shape := by
  unfold InnerWidget.refreshHeight at hr
  split at hr
  · cases hr; rfl
  · split at hr
    · next s1 h hrec =>
      cases hr
      have := (recountHeight_shape env s s1 h hrec).1
      simpa [InnerWidget.shape] using this
    · cases hr

theorem refreshHeight_isSome (env : Env) (s : InnerWidget)
    (hs : s.shape.otherTypes = true → s.shape.otherTabsShadow = true) :
    ∃ t, InnerWidget.refreshHeight env s = some t := by
  unfold InnerWidget.refreshHeight
  split
  · exact ⟨s, rfl⟩
  · obtain ⟨t, h, hrec⟩ := recountHeight_isSome env s hs
    simp [hrec]

theorem refreshSearchField_shape (env : Env) (s : InnerWidget) :
    (InnerWidget.refreshSearchField env s).shape =
      { s.shape with
        searchField := s.controller.hasSearchFieldController && s.otherTabs.isSome } := by
  unfold InnerWidget.refreshSearchField
  split <;> rename_i h <;> simp [InnerWidget.shape] <;> simpa using h

theorem setupList_shape (env : Env) (s t : InnerWidget) (l : ListWidget)
    (hr : InnerWidget.setupList env s = some (t, l)) :
    t.shape = { s.shape with
        searchField := s.controller.hasSearchFieldController && s.otherTabs.isSome,
        nextListId := s.nextListId + 1 } ∧
    l.ident = (s.nextListId, s.type, ViewSnapshot.empty, env.freshWidth) := by
  unfold InnerWidget.setupList at hr
  simp only at hr
  split at hr
  · next s3 href =>
    cases hr
    have h1 := refreshHeight_shape env _ _ href
    have h2 := refreshSearchField_shape env s
    constructor
    · rw [h1]
      simp only [InnerWidget.shape] at h2 ⊢
      simp only [Shape.mk.injEq] at h2 ⊢
      simp [h2]
    · simp [ListWidget.ident, InnerWidget.type, InnerWidget.refreshSearchField]
      constructor <;> split <;> rfl
  · cases hr

theorem listResizeToWidth_shape (env : Env) (s t : InnerWidget) (w : Int)
    (hr : InnerWidget.listResizeToWidth env s w = some t) :
    ∃ l, s.list = some l ∧
      t.shape = { s.shape with list := some (l.id, l.mediaType, l.state, w) } := by
  unfold InnerWidget.listResizeToWidth at hr
  split at hr
  · next l hl =>
    refine ⟨l, hl, ?_⟩
    simp only at hr
    split at hr
    · cases hr; simp [InnerWidget.shape, ListWidget.ident]
    · rw [refreshHeight_shape env _ _ hr]; simp [InnerWidget.shape, ListWidget.ident]
  · cases hr

theorem listResizeToWidth_isSome (env : Env) (s : InnerWidget) (w : Int)
    (hl : s.shape.list.isSome = true)
    (hs : s.shape.otherTypes = true → s.shape.otherTabsShadow = true) :
    ∃ t, InnerWidget.listResizeToWidth env s w = some t := by
  unfold InnerWidget.listResizeToWidth
  split
  · next l hl1 =>
    simp only
    split
    · exact ⟨_, rfl⟩
    · exact refreshHeight_isSome env _ (by simpa [InnerWidget.shape] using hs)
  · next hn => simp [InnerWidget.shape, hn] at hl

theorem switchToTab_shape (env : Env) (s t : InnerWidget) (m : Memento)
    (hr : InnerWidget.switchToTab env s m = some t) :
    t.shape = { s.shape with
        controller := { s.controller with mediaType := m.mediaType },
        searchField := s.controller.hasSearchFieldController && s.otherTabs.isSome,
        nextListId := s.nextListId + 1,
        list := some (s.nextListId, m.mediaType, m.snapshot, s.width),
        otherTabs := if s.otherTypes.isSome then TypeToTabIndex m.mediaType else s.otherTabs } := by
  unfold InnerWidget.switchToTab at hr
  simp only at hr
  split at hr
  · cases hr
  · next s2 l hsetup =>
    obtain ⟨hs2, hl⟩ := setupList_shape env _ _ _ hsetup
    simp only [InnerWidget.restoreState] at hr
    obtain ⟨l', hl', hs5⟩ : ∃ s5, InnerWidget.listResizeToWidth env
        { s2 with list := some { l with state := m.snapshot } } s2.width = some s5 ∧
        (match InnerWidget.refreshHeight env s5 with
          | none => none
          | some s6 =>
            if s6.otherTypes.isSome then
              match s6.otherTabsShadow, s6.otherTabs, TypeToTabIndex s6.type with
              | some _, some _, some i => some { s6 with otherTabs := some i }
              | _, _, _ => none
            else some s6) = some t := by
      split at hr
      · cases hr
      · next s5 h5 => exact ⟨s5, h5, hr⟩
    obtain ⟨l0, hl0, hsh5⟩ := listResizeToWidth_shape env _ _ _ hl'
    simp only [Option.some.injEq] at hl0
    subst hl0
    split at hs5
    · cases hs5
    · next s6 h6 =>
      have hsh6 := refreshHeight_shape env _ _ h6
      rw [hsh5] at hsh6
      have hw : s2.width = s.width := by
        have := congrArg Shape.width hs2
        simpa [InnerWidget.shape] using this
      have hot : s6.otherTypes.isSome = s.otherTypes.isSome := by
        have h1 := congrArg Shape.otherTypes hsh6
        have h2 := congrArg Shape.otherTypes hs2
        simp [InnerWidget.shape] at h1 h2
        rw [h1, h2]
      have hty : s6.type = m.mediaType := by
        have h1 := congrArg Shape.controller hsh6
        have h2 := congrArg Shape.controller hs2
        simp [InnerWidget.shape] at h1 h2
        simp [InnerWidget.type, h1, h2]
      have hid : l.id = s.nextListId ∧ l.mediaType = m.mediaType := by
        simp [ListWidget.ident, InnerWidget.type] at hl
        exact ⟨hl.1, hl.2.1⟩
      have hbase : s6.shape = { s.shape with
          controller := { s.controller with mediaType := m.mediaType },
          searchField := s.controller.hasSearchFieldController && s.otherTabs.isSome,
          nextListId := s.nextListId + 1,
          list := some (s.nextListId, m.mediaType, m.snapshot, s.width) } := by
        rw [hsh6]
        simp only [InnerWidget.shape] at hs2 ⊢
        simp only [Shape.mk.injEq] at hs2 ⊢
        simp [hs2, hid, hw]
      rw [hot] at hs5
      split at hs5
      · next hpres =>
        rw [hty] at hs5
        split at hs5
        · next i _ _ _ _ _ hidx =>
          cases hs5
          simp only [InnerWidget.shape, Shape.mk.injEq] at hbase ⊢
          simp [hbase, hpres, hidx]
        · cases hs5
      · next habs =>
        cases hs5
        rw [hbase]
        simp only [InnerWidget.shape, Shape.mk.injEq] at hbase ⊢
        simp [habs]

theorem setupList_isSome (env : Env) (s : InnerWidget)
    (hs : s.shape.otherTypes = true → s.shape.otherTabsShadow = true) :
    ∃ t l, InnerWidget.setupList env s = some (t, l) := by
  unfold InnerWidget.setupList
  simp only
  have h2 := refreshSearchField_shape env s
  obtain ⟨t, ht⟩ := refreshHeight_isSome env
    { InnerWidget.refreshSearchField env s with
      nextListId := (InnerWidget.refreshSearchField env s).nextListId + 1 }
    (by
      have h3 := congrArg Shape.otherTypes h2
      have h4 := congrArg Shape.otherTabsShadow h2
      simp only [InnerWidget.shape] at h3 h4 hs ⊢
      rw [h3, h4]; exact hs)
  rw [ht]
  exact ⟨_, _, rfl⟩

theorem switchToTab_isSome (env : Env) (s : InnerWidget) (m : Memento)
    (hs : s.otherTypes.isSome = true →
      s.otherTabsShadow.isSome = true ∧ s.otherTabs.isSome = true ∧
        (TypeToTabIndex m.mediaType).isSome = true) :
    ∃ t, InnerWidget.switchToTab env s m = some t := by
  have hsafe : ∀ u : InnerWidget, u.shape.otherTypes = s.shape.otherTypes →
      u.shape.otherTabsShadow = s.shape.otherTabsShadow →
      (u.shape.otherTypes = true → u.shape.otherTabsShadow = true) := by
    intro u h1 h2 h3
    rw [h2]; rw [h1] at h3
    exact (hs (by simpa [InnerWidget.shape] using h3)).1
  unfold InnerWidget.switchToTab
  simp only
  obtain ⟨s2, l, hsetup⟩ := setupList_isSome env
    { s with controller := { s.controller with mediaType := m.mediaType } }
    (hsafe _ rfl rfl)
  obtain ⟨hs2, hl⟩ := setupList_shape env _ _ _ hsetup
  rw [hsetup]
  simp only [InnerWidget.restoreState]
  obtain ⟨s5, h5⟩ := listResizeToWidth_isSome env
    { s2 with list := some { l with state := m.snapshot } } s2.width
    (by simp [InnerWidget.shape])
    (hsafe _ (by simpa [InnerWidget.shape] using congrArg Shape.otherTypes hs2)
             (by simpa [InnerWidget.shape] using congrArg Shape.otherTabsShadow hs2))
  obtain ⟨l0, hl0, hsh5⟩ := listResizeToWidth_shape env _ _ _ h5
  rw [h5]
  simp only
  have e5o : s5.shape.otherTypes = s.shape.otherTypes := by
    rw [hsh5]; simpa [InnerWidget.shape] using congrArg Shape.otherTypes hs2
  have e5s : s5.shape.otherTabsShadow = s.shape.otherTabsShadow := by
    rw [hsh5]; simpa [InnerWidget.shape] using congrArg Shape.otherTabsShadow hs2
  obtain ⟨s6, h6⟩ := refreshHeight_isSome env s5 (hsafe _ e5o e5s)
  have hsh6 := refreshHeight_shape env _ _ h6
  rw [h6]
  simp only
  have e6o : s6.otherTypes.isSome = s.otherTypes.isSome := by
    have := congrArg Shape.otherTypes hsh6
    rw [e5o] at this
    simpa [InnerWidget.shape] using this
  have e6s : s6.otherTabsShadow.isSome = s.otherTabsShadow.isSome := by
    have := congrArg Shape.otherTabsShadow hsh6
    rw [e5s] at this
    simpa [InnerWidget.shape] using this
  have e6t : s6.otherTabs = s.otherTabs := by
    have h1 := congrArg Shape.otherTabs hsh6
    rw [hsh5] at h1
    have h2 := congrArg Shape.otherTabs hs2
    simp [InnerWidget.shape] at h1 h2
    rw [h1, h2]
  have e6c : s6.type = m.mediaType := by
    have h1 := congrArg Shape.controller hsh6
    rw [hsh5] at h1
    have h2 := congrArg Shape.controller hs2
    simp [InnerWidget.shape] at h1 h2
    simp [InnerWidget.type, h1, h2]
  rw [e6o]
  split
  · next hpres =>
    obtain ⟨hsh, htabs, hidx⟩ := hs hpres
    rw [← e6s] at hsh
    rw [← e6t] at htabs
    rw [← e6c] at hidx
    obtain ⟨a, ha⟩ := Option.isSome_iff_exists.mp hsh
    obtain ⟨b, hb⟩ := Option.isSome_iff_exists.mp htabs
    obtain ⟨c, hc⟩ := Option.isSome_iff_exists.mp hidx
    rw [ha, hb, hc]
    exact ⟨_, rfl⟩
  · exact ⟨_, rfl⟩

theorem createOtherTypes_shape (env : Env) (s t : InnerWidget)
    (hr : InnerWidget.createOtherTypes env s = some t) :
    (TypeToTabIndex s.type).isSome = true ∧
    t.shape = { s.shape with
        otherTabsShadow := true, otherTypes := true, otherTabs := TypeToTabIndex s.type } := by
  unfold InnerWidget.createOtherTypes InnerWidget.createTabs at hr
  simp only at hr
  cases hidx : TypeToTabIndex s.type with
  | none => simp [InnerWidget.type] at hidx; simp [InnerWidget.type, hidx] at hr
  | some i =>
    simp only [InnerWidget.type] at hidx
    simp only [InnerWidget.type, hidx] at hr
    refine ⟨rfl, ?_⟩
    rw [refreshHeight_shape env _ _ hr]
    simp [InnerWidget.shape]

theorem createOtherTypes_isSome (env : Env) (s : InnerWidget)
    (hidx : (TypeToTabIndex s.type).isSome = true) :
    ∃ t, InnerWidget.createOtherTypes env s = some t := by
  obtain ⟨i, hi⟩ := Option.isSome_iff_exists.mp hidx
  unfold InnerWidget.createOtherTypes InnerWidget.createTabs
  simp only [InnerWidget.type] at hi ⊢
  simp only [hi]
  exact refreshHeight_isSome env _ (by simp [InnerWidget.shape])

theorem setupOtherTypesNext_shape (env : Env) (s t : InnerWidget) (value : Wrap)
    (hr : InnerWidget.setupOtherTypesNext env s value = some t) :
    t.shape =
      if value = Wrap.Side ∧ (TypeToTabIndex s.type).isSome = true then
        { s.shape with
          otherTabsShadow := true, otherTypes := true, otherTabs := TypeToTabIndex s.type,
          searchField := s.controller.hasSearchFieldController }
      else
        { s.shape with otherTypes := false, otherTabs := none, searchField := false } := by
  unfold InnerWidget.setupOtherTypesNext at hr
  simp only at hr
  split at hr
  · cases hr
  · next s1 hb =>
    cases hr
    rw [refreshSearchField_shape]
    split at hb
    · next hc =>
      obtain ⟨hidx, hsh⟩ := createOtherTypes_shape env _ _ hb
      rw [if_pos hc, hsh]
      have ht : s1.otherTabs = TypeToTabIndex s.type := by
        simpa [InnerWidget.shape] using congrArg Shape.otherTabs hsh
      have hcn : s1.controller = s.controller := by
        simpa [InnerWidget.shape] using congrArg Shape.controller hsh
      simp [ht, hcn, hidx]
    · next hc =>
      have hsh := refreshHeight_shape env _ _ hb
      rw [if_neg hc, hsh]
      have ht : s1.otherTabs = none := by
        simpa [InnerWidget.shape] using congrArg Shape.otherTabs hsh
      simp [InnerWidget.shape, ht]

theorem setupOtherTypesNext_isSome (env : Env) (s : InnerWidget) (value : Wrap) :
    ∃ t, InnerWidget.setupOtherTypesNext env s value = some t := by
  unfold InnerWidget.setupOtherTypesNext
  simp only
  split
  · next hb =>
    exfalso
    split at hb
    · next hc =>
      obtain ⟨t, ht⟩ := createOtherTypes_isSome env s hc.2
      rw [ht] at hb; cases hb
    · obtain ⟨t, ht⟩ := refreshHeight_isSome env
        { s with otherTabs := none, otherTypes := none } (by simp [InnerWidget.shape])
      rw [ht] at hb; cases hb
  · exact ⟨_, rfl⟩

theorem create_isSome (env : Env) (c : Controller) :
    ∃ s, InnerWidget.create env c = some s := by
  unfold InnerWidget.create
  simp only
  obtain ⟨s1, l, h1⟩ := setupList_isSome env
    { controller := c, width := env.freshWidth, height := env.freshHeight,
      list := none, otherTypes := none, otherTabs := none, otherTabsShadow := none,
      searchField := none, inResize := false, nextListId := 0, recounts := 0 }
    (by simp [InnerWidget.shape])
  rw [h1]
  exact setupOtherTypesNext_isSome env _ _

theorem create_shape (env : Env) (c : Controller) (s : InnerWidget)
    (hr : InnerWidget.create env c = some s) :
    s.shape =
      if c.wrap = Wrap.Side ∧ (TypeToTabIndex c.mediaType).isSome = true then
        { controller := c, width := env.freshWidth, inResize := false, nextListId := 1,
          otherTabs := TypeToTabIndex c.mediaType, otherTypes := true,
          otherTabsShadow := true, searchField := c.hasSearchFieldController,
          list := some (0, c.mediaType, ViewSnapshot.empty, env.freshWidth) }
      else
        { controller := c, width := env.freshWidth, inResize := false, nextListId := 1,
          otherTabs := none, otherTypes := false,
          otherTabsShadow := false, searchField := false,
          list := some (0, c.mediaType, ViewSnapshot.empty, env.freshWidth) } := by
  unfold InnerWidget.create at hr
  simp only at hr
  split at hr
  · cases hr
  · next s1 l h1 =>
    obtain ⟨hs1, hl⟩ := setupList_shape env _ _ _ h1
    have h2 := setupOtherTypesNext_shape env _ _ _ hr
    rw [h2]
    have hc1 : s1.controller = c := by
      simpa [InnerWidget.shape] using congrArg Shape.controller hs1
    simp only [InnerWidget.setupOtherTypes, InnerWidget.type, hc1]
    simp only [InnerWidget.shape, Shape.mk.injEq] at hs1
    simp only [ListWidget.ident, InnerWidget.type] at hl
    split <;> simp [InnerWidget.shape, ListWidget.ident, hs1, hl, hc1]

theorem otherTypesResizeToWidth_shape (env : Env) (s t : InnerWidget) (w : Int)
    (hr : InnerWidget.otherTypesResizeToWidth env s w = some t) : t.shape = s.shape := by
  unfold InnerWidget.otherTypesResizeToWidth at hr
  split at hr
  · next ot hot =>
    simp only at hr
    split at hr
    · cases hr; simp [InnerWidget.shape, hot]
    · rw [refreshHeight_shape env _ _ hr]; simp [InnerWidget.shape, hot]
  · cases hr

theorem otherTypesResizeToWidth_recounts (env : Env) (s t : InnerWidget) (w : Int)
    (hin : s.inResize = true)
    (hr : InnerWidget.otherTypesResizeToWidth env s w = some t) :
    t.recounts = s.recounts ∧ t.height = s.height := by
  unfold InnerWidget.otherTypesResizeToWidth at hr
  split at hr
  · simp only at hr
    split at hr
    · cases hr; exact ⟨rfl, rfl⟩
    · simp [InnerWidget.refreshHeight, hin] at hr
      rw [← hr]; exact ⟨rfl, rfl⟩
  · cases hr

theorem otherTypesResizeToWidth_isSome (env : Env) (s : InnerWidget) (w : Int)
    (ho : s.otherTypes.isSome = true)
    (hs : s.shape.otherTypes = true → s.shape.otherTabsShadow = true) :
    ∃ t, InnerWidget.otherTypesResizeToWidth env s w = some t := by
  unfold InnerWidget.otherTypesResizeToWidth
  split
  · simp only
    split
    · exact ⟨_, rfl⟩
    · exact refreshHeight_isSome env _ (by
        intro _
        have := hs (by simpa [InnerWidget.shape] using ho)
        simpa [InnerWidget.shape] using this)
  · next hn => simp [hn] at ho

theorem listResizeToWidth_recounts (env : Env) (s t : InnerWidget) (w : Int)
    (hin : s.inResize = true)
    (hr : InnerWidget.listResizeToWidth env s w = some t) :
    t.recounts = s.recounts ∧ t.height = s.height := by
  unfold InnerWidget.listResizeToWidth at hr
  split at hr
  · simp only at hr
    split at hr
    · cases hr; exact ⟨rfl, rfl⟩
    · simp [InnerWidget.refreshHeight, hin] at hr
      rw [← hr]; exact ⟨rfl, rfl⟩
  · cases hr

/-- The part of `resizeGetHeight` before the list is resized, as a function. -/
theorem resizeGetHeight_children (env : Env) (s : InnerWidget) (w : Int)
    (hs : s.otherTypes.isSome = true → s.otherTabsShadow.isSome = true) :
    ∃ s4 : InnerWidget,
      (InnerWidget.resizeGetHeight env s w =
        match InnerWidget.listResizeToWidth env s4 w with
        | none => none
        | some s5 =>
          match InnerWidget.recountHeight env s5 with
          | none => none
          | some (s6, h) => some ({ s6 with inResize := false }, h)) ∧
      s4.shape = { s.shape with inResize := true } ∧ s4.recounts = s.recounts ∧
      s4.height = s.height := by
  unfold InnerWidget.resizeGetHeight
  simp only
  cases hot : s.otherTypes.isSome with
  | false =>
    simp only [Bool.false_eq_true, if_false]
    cases hsf : s.searchField with
    | none => exact ⟨_, rfl, by simp [InnerWidget.shape, hsf], rfl, rfl⟩
    | some sf => exact ⟨_, rfl, by simp [InnerWidget.shape, hsf], rfl, rfl⟩
  | true =>
    simp only [if_true]
    obtain ⟨s2, h2⟩ := otherTypesResizeToWidth_isSome env { s with inResize := true } w hot
      (by simpa [InnerWidget.shape] using hs)
    have hsh2 := otherTypesResizeToWidth_shape env _ _ _ h2
    have hrc2 := otherTypesResizeToWidth_recounts env _ _ _ rfl h2
    rw [h2]
    simp only
    have hshadow : s2.otherTabsShadow.isSome = true := by
      have := congrArg Shape.otherTabsShadow hsh2
      simp only [InnerWidget.shape] at this
      rw [this]; exact hs hot
    obtain ⟨sh, hsh⟩ := Option.isSome_iff_exists.mp hshadow
    rw [hsh]
    simp only
    simp only [InnerWidget.shape, Shape.mk.injEq] at hsh2
    cases hsf : s2.searchField with
    | none =>
      refine ⟨_, rfl, ?_, ?_, ?_⟩
      · simp [InnerWidget.shape, hsf, hsh2]
        have := hsh2.2.2.2.2.2.2.2.1
        exact ⟨hs hot, by simpa [hsf] using this.symm⟩
      · simpa using hrc2.1
      · simpa using hrc2.2
    | some sf =>
      refine ⟨_, rfl, ?_, ?_, ?_⟩
      · simp [InnerWidget.shape, hsf, hsh2]
        have := hsh2.2.2.2.2.2.2.2.1
        exact ⟨hs hot, by simpa [hsf] using this.symm⟩
      · simpa using hrc2.1
      · simpa using hrc2.2

theorem resizeGetHeight_total (env : Env) (s : InnerWidget) (w : Int)
    (hl : s.list.isSome = true)
    (hs : s.otherTypes.isSome = true → s.otherTabsShadow.isSome = true) :
    ∃ t h, InnerWidget.resizeGetHeight env s w = some (t, h) ∧
      t.shape = { s.shape with
        inResize := false,
        list := s.shape.list.map (fun p => (p.1, p.2.1, p.2.2.1, w)) } ∧
      t.recounts = s.recounts + 1 ∧ t.height = s.height := by
  obtain ⟨s4, heq, hsh4, hrc4, hht4⟩ := resizeGetHeight_children env s w hs
  rw [heq]
  have e4 := hsh4
  simp only [InnerWidget.shape, Shape.mk.injEq] at e4
  obtain ⟨s5, h5⟩ := listResizeToWidth_isSome env s4 w
    (by rw [hsh4]; simpa [InnerWidget.shape] using hl)
    (by rw [hsh4]; simpa [InnerWidget.shape] using hs)
  obtain ⟨l, hl4, hsh5⟩ := listResizeToWidth_shape env _ _ _ h5
  have hrc5 := listResizeToWidth_recounts env _ _ _ e4.2.2.1 h5
  rw [h5]
  simp only
  obtain ⟨s6, h, h6⟩ := recountHeight_isSome env s5 (by
    have h1 := congrArg Shape.otherTypes hsh5
    have h2 := congrArg Shape.otherTabsShadow hsh5
    simp only [InnerWidget.shape] at h1 h2
    rw [h1, h2, e4.2.2.2.2.2.1, e4.2.2.2.2.2.2.1]
    exact hs)
  obtain ⟨hsh6, hrc6, hht6⟩ := recountHeight_shape env _ _ _ h6
  rw [h6]
  refine ⟨_, _, rfl, ?_, ?_, ?_⟩
  · have hl' : s.list.map ListWidget.ident = some l.ident := by
      rw [← e4.2.2.2.2.2.2.2.2, hl4]; rfl
    simp only [InnerWidget.shape, Shape.mk.injEq] at hsh6 hsh5 ⊢
    simp only [hsh6, hsh5, e4, hl']
    simp [ListWidget.ident]
  · simp only [hrc6, hrc5.1, hrc4]
  · simp only [hht6, hrc5.2, hht4]

theorem resizeToWidth_shape (env : Env) (s t : InnerWidget) (w : Int)
    (hl : s.list.isSome = true)
    (hs : s.otherTypes.isSome = true → s.otherTabsShadow.isSome = true)
    (hr : InnerWidget.resizeToWidth env s w = some t) :
    t.shape = { s.shape with
        width := w, inResize := false,
        list := s.shape.list.map (fun p => (p.1, p.2.1, p.2.2.1, w)) } := by
  obtain ⟨t1, h, h1, hsh, _, _⟩ := resizeGetHeight_total env s w hl hs
  unfold InnerWidget.resizeToWidth at hr
  rw [h1] at hr
  cases hr
  simp only [InnerWidget.shape, Shape.mk.injEq] at hsh ⊢
  simp [hsh]

theorem listHeightChanged_shape (env : Env) (s t : InnerWidget) (h : Int)
    (hr : InnerWidget.listHeightChanged env s h = some t) : t.shape = s.shape := by
  unfold InnerWidget.listHeightChanged at hr
  split at hr
  · next l hl =>
    rw [refreshHeight_shape env _ _ hr]
    simp [InnerWidget.shape, ListWidget.ident, hl]
  · cases hr

theorem otherTypesHeightChanged_shape (env : Env) (s t : InnerWidget) (h : Int)
    (hr : InnerWidget.otherTypesHeightChanged env s h = some t) : t.shape = s.shape := by
  unfold InnerWidget.otherTypesHeightChanged at hr
  split at hr
  · next ot hot =>
    rw [refreshHeight_shape env _ _ hr]
    simp [InnerWidget.shape, hot]
  · cases hr

theorem showInternal_invalid (env : Env) (s : InnerWidget) (m : Memento)
    (hv : env.validateMementoPeer s.controller m = false) :
    InnerWidget.showInternal env s m = some (s, false) := by
  simp [InnerWidget.showInternal, hv]

theorem showInternal_same (env : Env) (s : InnerWidget) (m : Memento)
    (hv : env.validateMementoPeer s.controller m = true) (ht : m.mediaType = s.type) :
    InnerWidget.showInternal env s m =
      match s.list with
      | some l => some ({ s with list := some { l with state := m.snapshot } }, true)
      | none => none := by
  simp only [InnerWidget.showInternal, hv, ht, InnerWidget.restoreState]
  cases s.list <;> simp

theorem showInternal_other (env : Env) (s : InnerWidget) (m : Memento)
    (hv : env.validateMementoPeer s.controller m = true) (ht : m.mediaType ≠ s.type) :
    InnerWidget.showInternal env s m =
      if s.otherTypes.isSome = true ∧ (TypeToTabIndex m.mediaType).isSome = true then
        match InnerWidget.switchToTab env s m with
        | some s1 => some (s1, true)
        | none => none
      else some (s, false) := by
  simp only [InnerWidget.showInternal, hv, ht]
  by_cases h1 : s.otherTypes.isSome = true <;>
    by_cases h2 : (TypeToTabIndex m.mediaType).isSome = true <;> simp [h1, h2]

theorem tabIndex_isSome_of_type (i : Int) (t : MediaType) (h : TabIndexToType i = some t) :
    TypeToTabIndex t = some i := by
  unfold TabIndexToType at h
  split at h
  · cases h; simp [TypeToTabIndex, *]
  · split at h
    · cases h; simp [TypeToTabIndex, *]
    · split at h
      · cases h; simp [TypeToTabIndex, *]
      · cases h

theorem inv_switchToTab (env : Env) (s t : InnerWidget) (m : Memento)
    (hinv : s.shape.Inv) (ho : s.otherTypes.isSome = true)
    (hidx : (TypeToTabIndex m.mediaType).isSome = true)
    (hr : InnerWidget.switchToTab env s m = some t) : t.shape.Inv := by
  have hsh := switchToTab_shape env s t m hr
  obtain ⟨h1, h2, h3, h4, h5, h6, h7⟩ := hinv
  simp only [InnerWidget.shape] at h1 h2 h3 h4 h5 h6 h7
  have hside : s.controller.wrap = Wrap.Side := by
    rw [ho] at h4
    have := h4.symm
    simp at this
    exact this.1
  have htabs : s.otherTabs.isSome = true := by
    rw [h5, ho]
    simp only [if_true]
    have := h4.symm
    rw [ho] at this
    simp at this
    exact this.2
  rw [hsh]
  simp only [InnerWidget.shape]
  constructor
  · simp
  · intro p hp
    simp only [Option.some.injEq] at hp
    subst hp
    simp
  · exact h3
  · simp [ho, hside, hidx]
  · simp [ho]
  · simpa using h6
  · simp only [ho, htabs] at h7 ⊢

theorem reachable_inv (env : Env) (s : InnerWidget) (hr : Reachable env s) : s.shape.Inv := by
  induction hr with
  | create c s hc =>
    rw [create_shape env c s hc]
    split
    · next h =>
      constructor <;> simp [h]
    · next h =>
      constructor <;> simp
      · simp at h
        cases hw : c.wrap <;> simp
        cases hi : TypeToTabIndex c.mediaType <;> simp
        have := h hw
        simp [hi] at this
  | wrapChanged s s1 value _ hstep ih =>
    have hsh := setupOtherTypesNext_shape env _ _ _ hstep
    obtain ⟨h1, h2, h3, h4, h5, h6, h7⟩ := ih
    simp only [InnerWidget.shape] at h1 h2 h3 h4 h5 h6 h7
    rw [hsh]
    simp only [InnerWidget.type, InnerWidget.shape]
    have hwrap : ¬ (value = Wrap.Side ∧ (TypeToTabIndex s.controller.mediaType).isSome = true) →
        (decide (value = Wrap.Side) && (TypeToTabIndex s.controller.mediaType).isSome) = false := by
      intro h
      cases hw : value <;> simp
      cases hi : TypeToTabIndex s.controller.mediaType <;> simp
      exact h ⟨hw, by simp [hi]⟩
    split
    · next h =>
      refine ⟨by simpa using h1, ?_, h3, by simp [h], by simp, by simp, by simp⟩
      intro p hp
      exact h2 p hp
    · next h =>
      refine ⟨by simpa using h1, ?_, h3, by simp [hwrap h], by simp, by simp, by simp⟩
      intro p hp
      exact h2 p hp
  | sectionActivated s s1 index _ htabs hstep ih =>
    unfold InnerWidget.sectionActivated at hstep
    split at hstep
    · cases hstep
    · next newType hnt =>
      split at hstep
      · have hidx := tabIndex_isSome_of_type index newType hnt
        have ho : s.otherTypes.isSome = true := by
          have h5 := ih.tabs
          simp only [InnerWidget.shape] at h5
          rw [h5] at htabs
          split at htabs
          · assumption
          · simp at htabs
        exact inv_switchToTab env s s1 _ ih ho (by simp [Memento.fresh, hidx]) hstep
      · cases hstep; exact ih
  | showInternal s s1 memento b _ hstep ih =>
    by_cases hv : env.validateMementoPeer s.controller memento = true
    · by_cases ht : memento.mediaType = s.type
      · rw [showInternal_same env s memento hv ht] at hstep
        split at hstep
        · next l hl =>
          cases hstep
          obtain ⟨h1, h2, h3, h4, h5, h6, h7⟩ := ih
          simp only [InnerWidget.shape, hl] at h1 h2 h3 h4 h5 h6 h7 ⊢
          refine ⟨by simp, ?_, h3, h4, h5, h6, h7⟩
          intro p hp
          simp [ListWidget.ident] at hp
          subst hp
          simpa [ListWidget.ident] using h2 l.ident rfl
        · cases hstep
      · rw [showInternal_other env s memento hv ht] at hstep
        split at hstep
        · next hc =>
          split at hstep
          · next t ht1 =>
            cases hstep
            exact inv_switchToTab env s _ memento ih hc.1 hc.2 ht1
          · cases hstep
        · cases hstep; exact ih
    · rw [showInternal_invalid env s memento (by simpa using hv)] at hstep
      cases hstep; exact ih
  | resizeToWidth s s1 w _ hstep ih =>
    obtain ⟨h1, h2, h3, h4, h5, h6, h7⟩ := ih
    have hsh := resizeToWidth_shape env s s1 w (by simpa [InnerWidget.shape] using h1)
      (by simpa [InnerWidget.shape] using h6) hstep
    rw [hsh]
    simp only [InnerWidget.shape] at h1 h2 h3 h4 h5 h6 h7 ⊢
    constructor <;> try assumption
    · simpa using h1
    · intro p hp
      simp at hp
      obtain ⟨l, hl, rfl⟩ := hp
      simpa [ListWidget.ident] using h2 l.ident (by simp [hl])
    · rfl
  | listHeightChanged s s1 h _ hstep ih =>
    rw [listHeightChanged_shape env s s1 h hstep]; exact ih
  | otherTypesHeightChanged s s1 h _ hstep ih =>
    rw [otherTypesHeightChanged_shape env s s1 h hstep]; exact ih

theorem list_of_shape (t : InnerWidget) (p : Nat × MediaType × ViewSnapshot × Int)
    (h : t.shape.list = some p) :
    ∃ l, t.list = some l ∧ l.id = p.1 ∧ l.mediaType = p.2.1 ∧ l.state = p.2.2.1 ∧
      l.geometry.width = p.2.2.2 := by
  simp only [InnerWidget.shape] at h
  cases hl : t.list with
  | none => simp [hl] at h
  | some l =>
    simp [hl, ListWidget.ident] at h
    subst h
    exact ⟨l, rfl, rfl, rfl, rfl, rfl⟩

/-- What a type switch gives in a state that satisfies the invariant, when the layout
of the other types is absent or the new type is a tab type. -/
theorem switchToTab_result (env : Env) (s : InnerWidget) (m : Memento)
    (hinv : s.shape.Inv)
    (hidx : s.otherTypes.isSome = true → (TypeToTabIndex m.mediaType).isSome = true) :
    ∃ t l, InnerWidget.switchToTab env s m = some t ∧
      t.type = m.mediaType ∧ t.width = s.width ∧
      t.otherTypes.isSome = s.otherTypes.isSome ∧
      t.otherTabs = (if s.otherTypes.isSome = true then TypeToTabIndex m.mediaType else s.otherTabs) ∧
      t.nextListId = s.nextListId + 1 ∧
      t.list = some l ∧ l.id = s.nextListId ∧ l.mediaType = m.mediaType ∧
      l.state = m.snapshot ∧ l.geometry.width = s.width := by
  have h4 := hinv.strip
  have h5 := hinv.tabs
  have h6 := hinv.shadow
  simp only [InnerWidget.shape] at h4 h5 h6
  obtain ⟨t, ht⟩ := switchToTab_isSome env s m (by
    intro ho
    refine ⟨h6 ho, ?_, hidx ho⟩
    rw [h5, if_pos ho]
    rw [h4] at ho
    simp at ho
    exact ho.2)
  have hsh := switchToTab_shape env s t m ht
  obtain ⟨l, hl, h1, h2, h3, h4'⟩ := list_of_shape t _ (by rw [hsh])
  have e := hsh
  simp only [InnerWidget.shape, Shape.mk.injEq] at e
  refine ⟨t, l, ht, ?_, e.2.1, e.2.2.2.2.2.1, e.2.2.2.2.1, e.2.2.2.1, hl, h1, h2, h3, h4'⟩
  simp [InnerWidget.type, e.1]

/-- A switch made by the slider leaves the new list in the empty state, whatever the
state of the outgoing list was: the memento of the switch is a fresh one. -/
theorem sectionActivated_new_list_state (env : Env) (s : InnerWidget) (i : Int)
    (T : MediaType) (hr : Reachable env s) (hT : TabIndexToType i = some T)
    (hne : s.type ≠ T) :
    ∃ t l, InnerWidget.sectionActivated env s i = some t ∧ t.list = some l ∧
      l.mediaType = T ∧ l.state = ViewSnapshot.empty := by
  have hidx := tabIndex_isSome_of_type i T hT
  obtain ⟨t, l, ht, _, _, _, _, _, h6, _, h8, h9, _⟩ :=
    switchToTab_result env s
      (Memento.fresh s.controller.peerId s.controller.migratedPeerId T)
      (reachable_inv env s hr) (fun _ => by simp [Memento.fresh, hidx])
  refine ⟨t, l, ?_, h6, h8, h9⟩
  simp only [InnerWidget.sectionActivated, hT]
  rw [if_pos hne]
  exact ht

theorem toInt_of_fitsInt (x : Int) (h : fitsInt x) : toInt x = x := by
  unfold fitsInt at h
  unfold toInt
  omega

/-- When the wrap leaves Side while a search field exists, the layout of the other
types and the search field are removed, and the height the widget resizes itself to is
that of the list plus that of the removed search field less one line width (as long
as these values fit an `int`). -/
theorem wrapChanged_embedded_height (env : Env) (s : InnerWidget) (l : ListWidget)
    (sf : Geometry) (hr : Reachable env s) (hl : s.list = some l)
    (hsf : s.searchField = some sf)
    (h1 : fitsInt (sf.height - env.lineWidth))
    (h2 : fitsInt (sf.height - env.lineWidth + l.geometry.height)) :
    ∃ t, InnerWidget.wrapChanged env s Wrap.Embedded = some t ∧
      t.otherTypes = none ∧ t.otherTabs = none ∧ t.searchField = none ∧
      t.height = sf.height - env.lineWidth + l.geometry.height ∧
      t.list.map (fun x => x.geometry.height) = some l.geometry.height := by
  have hres := (reachable_inv env s hr).not_inResize
  simp only [InnerWidget.shape] at hres
  rcases s with ⟨c, w, ht, l0, ot, tabs, sh, sf0, ir, n, r⟩
  simp only at hl hsf hres
  subst hl hsf hres
  simp [InnerWidget.wrapChanged, InnerWidget.setupOtherTypesNext, InnerWidget.refreshHeight,
    InnerWidget.recountHeight, InnerWidget.refreshSearchField]
  rw [toInt_of_fitsInt _ h1, toInt_of_fitsInt _ h1, toInt_of_fitsInt _ h2]

/-! ## The widgets used as concrete inputs -/

theorem create_sidePhoto : InnerWidget.create env0 sidePhoto = some widget0 := by rfl

theorem create_embeddedVideo : InnerWidget.create env0 embeddedVideo = some widget1 := by rfl

theorem reachable_widget0 : Reachable env0 widget0 :=
  Reachable.create sidePhoto widget0 create_sidePhoto

theorem reachable_widget1 : Reachable env0 widget1 :=
  Reachable.create embeddedVideo widget1 create_embeddedVideo

theorem reachable_widget0Scrolled : Reachable env0 widget0Scrolled :=
  Reachable.showInternal widget0 widget0Scrolled (mementoOf MediaType.Photo) true
    reachable_widget0 (by rfl)

theorem tabType_iff (t : MediaType) :
    (TypeToTabIndex t).isSome = true ↔
      (t = MediaType.Photo ∨ t = MediaType.Video ∨ t = MediaType.File) := by
  cases t <;> simp [TypeToTabIndex]

/-! ## The claims -/

/-- C1: in every state reached from the constructor through wrap changes, activations
of the slider and `showInternal` calls (and resizes and height changes of the
children), `_otherTypes` exists if and only if the wrap is Side and the current type
is Photo, Video or File, and `_otherTabs` exists exactly when `_otherTypes` does. -/
theorem C1_otherTypes_iff_side_and_tab_type (env : Env) (s : InnerWidget)
    (hr : Reachable env s) :
    (s.otherTypes.isSome = true ↔
      (s.controller.wrap = Wrap.Side ∧
        (s.type = MediaType.Photo ∨ s.type = MediaType.Video ∨ s.type = MediaType.File))) ∧
    (s.otherTabs.isSome = true ↔ s.otherTypes.isSome = true) := by
  have hinv := reachable_inv env s hr
  have h4 := hinv.strip
  have h5 := hinv.tabs
  simp only [InnerWidget.shape] at h4 h5
  constructor
  · rw [h4, ← tabType_iff]
    simp [InnerWidget.type]
  · rw [h5]
    constructor
    · intro h
      by_cases ho : s.otherTypes.isSome = true
      · exact ho
      · simp [ho] at h
    · intro ho
      rw [if_pos ho]
      rw [h4] at ho
      simp at ho
      exact ho.2

/-- C1 at the widget constructed in Side wrap for photos: the layout exists. -/
theorem C1_witness :
    Reachable env0 widget0 ∧ widget0.otherTypes.isSome = true ∧
      widget0.otherTabs.isSome = true ∧
    ((widget0.otherTypes.isSome = true ↔
      (widget0.controller.wrap = Wrap.Side ∧
        (widget0.type = MediaType.Photo ∨ widget0.type = MediaType.Video ∨
          widget0.type = MediaType.File))) ∧
    (widget0.otherTabs.isSome = true ↔ widget0.otherTypes.isSome = true)) :=
  ⟨reachable_widget0, rfl, rfl, C1_otherTypes_iff_side_and_tab_type env0 widget0 reachable_widget0⟩

/-- C9: in every reachable state the search field exists if and only if the controller
supplies a search field controller and `_otherTypes` exists. -/
theorem C9_searchField_iff_controller_and_otherTypes (env : Env) (s : InnerWidget)
    (hr : Reachable env s) :
    (s.searchField.isSome = true ↔
      (s.controller.hasSearchFieldController = true ∧ s.otherTypes.isSome = true)) := by
  have h7 := (reachable_inv env s hr).search
  simp only [InnerWidget.shape] at h7
  rw [h7]
  simp

/-- C9 at the widget constructed in Side wrap with a search field controller: the
search field exists. -/
theorem C9_witness :
    Reachable env0 widget0 ∧ widget0.searchField.isSome = true ∧
    (widget0.searchField.isSome = true ↔
      (widget0.controller.hasSearchFieldController = true ∧
        widget0.otherTypes.isSome = true)) :=
  ⟨reachable_widget0, rfl,
    C9_searchField_iff_controller_and_otherTypes env0 widget0 reachable_widget0⟩

/-- C7: `TypeToTabIndex` sends Photo, Video, File to 0, 1, 2 and every other type to
none; `TypeToTabIndex (TabIndexToType i) = some i` for i in 0, 1, 2; and
`TabIndexToType i = t` whenever `TypeToTabIndex t = some i`. -/
theorem C7_tab_index_type_inverse :
    TypeToTabIndex MediaType.Photo = some 0 ∧
    TypeToTabIndex MediaType.Video = some 1 ∧
    TypeToTabIndex MediaType.File = some 2 ∧
    TypeToTabIndex MediaType.MusicFile = none ∧
    TypeToTabIndex MediaType.Link = none ∧
    TypeToTabIndex MediaType.VoiceFile = none ∧
    TypeToTabIndex MediaType.RoundFile = none ∧
    (∀ i : Int, (i = 0 ∨ i = 1 ∨ i = 2) →
      (TabIndexToType i).bind TypeToTabIndex = some i) ∧
    (∀ (t : MediaType) (i : Int), TypeToTabIndex t = some i → TabIndexToType i = some t) := by
  refine ⟨rfl, rfl, rfl, rfl, rfl, rfl, rfl, ?_, ?_⟩
  · intro i hi
    rcases hi with rfl | rfl | rfl <;> rfl
  · intro t i h
    cases t <;> simp [TypeToTabIndex] at h <;> subst h <;> rfl

/-- C4 as stated fails: in `widgetTall` the layout of the other types is 200 high, the
search field 40, the list 2147483647 and the line width 1; the sum of the heights less
two line widths is 2147483885, and `recountHeight` returns -2147483411, the `int` that
the last addition leaves. -/
theorem C4_counterexample :
    widgetTall.list.isSome = true ∧
    presentRegionHeights widgetTall = [200, 40, 2147483647] ∧
    stackedHeight env0.lineWidth (presentRegionHeights widgetTall) = 2147483885 ∧
    (InnerWidget.recountHeight env0 widgetTall).map Prod.snd = some (-2147483411) :=
  ⟨rfl, rfl, by decide, by rfl⟩

/-- C4 as amended: when the list is present (and the shadow exists whenever the layout
of the other types does, without which the code dereferences a null pointer) and no
step of the computation leaves the range of `int`, `recountHeight` returns the sum of
the heights of the present regions minus one line width for each present region other
than the first, whichever of the layout and the search field are present. -/
theorem C4_recountHeight_is_stacked_height (env : Env) (s : InnerWidget)
    (hl : s.list.isSome = true)
    (hs : s.otherTypes.isSome = true → s.otherTabsShadow.isSome = true)
    (hfit : recountFits env s) :
    ∃ t, InnerWidget.recountHeight env s =
      some (t, stackedHeight env.lineWidth (presentRegionHeights s)) := by
  rcases s with ⟨c, w, ht, l, ot, tabs, sh, sf, ir, n, r⟩
  cases l with
  | none => simp at hl
  | some l =>
    cases ot <;> cases sh <;> cases sf <;>
      simp [InnerWidget.recountHeight, stackedHeight, presentRegionHeights, recountFits,
        recountTerms, runningTops] at hs hfit ⊢ <;>
      simp only [fitsInt] at hfit <;>
      simp only [toInt] <;>
      omega

/-- C4 as amended at `widget0`, where all three regions are present and every step
fits: 200 + 40 + 900 - 2 * 1. -/
theorem C4_witness :
    widget0.list.isSome = true ∧
    recountFits env0 widget0 ∧
    stackedHeight env0.lineWidth (presentRegionHeights widget0) = 1138 ∧
    ∃ t, InnerWidget.recountHeight env0 widget0 =
      some (t, stackedHeight env0.lineWidth (presentRegionHeights widget0)) :=
  have hfit : recountFits env0 widget0 := by
    intro x hx
    simp [recountTerms, runningTops, widget0, env0] at hx
    rcases hx with rfl | rfl | rfl | rfl | rfl | rfl <;> simp [fitsInt]
  ⟨rfl, hfit, by decide,
    C4_recountHeight_is_stacked_height env0 widget0 rfl (fun _ => rfl) hfit⟩

/-- C6: in a reachable state with `_otherTypes` present, for every index i in 0, 1, 2
the handler of the slider returns; afterwards the current type is `TabIndexToType i`,
the active section is i and `_otherTypes` is still present; when the type differs from
the previous one the list is a newly constructed one (its identity is the next unused
one, so it is not the previous list), of the new type, resized to the width of the
widget; when the type is the previous one the widget, and so the list, is unchanged. -/
theorem C6_sectionActivated (env : Env) (s : InnerWidget) (i : Int)
    (hr : Reachable env s) (ho : s.otherTypes.isSome = true)
    (hi : i = 0 ∨ i = 1 ∨ i = 2) :
    ∃ T t, TabIndexToType i = some T ∧
      InnerWidget.sectionActivated env s i = some t ∧
      t.type = T ∧ t.otherTabs = some i ∧ t.otherTypes.isSome = true ∧
      (T ≠ s.type →
        ∃ l, t.list = some l ∧ l.id = s.nextListId ∧
          (∀ old, s.list = some old → old.id ≠ l.id) ∧
          l.mediaType = T ∧ l.geometry.width = t.width ∧ t.width = s.width) ∧
      (T = s.type → t = s) := by
  have hinv := reachable_inv env s hr
  obtain ⟨T, hT⟩ : ∃ T, TabIndexToType i = some T := by
    rcases hi with rfl | rfl | rfl <;> exact ⟨_, rfl⟩
  have hidx := tabIndex_isSome_of_type i T hT
  refine ⟨T, ?_⟩
  by_cases hne : s.type ≠ T
  · obtain ⟨t, l, ht, h1, h2, h3, h4, _, h6, h7, h8, _, h10⟩ :=
      switchToTab_result env s
        (Memento.fresh s.controller.peerId s.controller.migratedPeerId T) hinv
        (fun _ => by simp [Memento.fresh, hidx])
    refine ⟨t, hT, ?_, h1, ?_, ?_, ?_, ?_⟩
    · simp only [InnerWidget.sectionActivated, hT]
      rw [if_pos hne]
      exact ht
    · rw [h4, if_pos ho]; exact hidx
    · rw [h3]; exact ho
    · intro _
      refine ⟨l, h6, h7, ?_, h8, ?_, h2⟩
      · intro old hold
        have := (hinv.list_id old.ident (by simp [InnerWidget.shape, hold])).1
        simp only [ListWidget.ident, InnerWidget.shape] at this
        omega
      · rw [h10, h2]
    · intro h; exact absurd h.symm hne
  · have heq : s.type = T := by simpa using hne
    refine ⟨s, hT, ?_, heq, ?_, ho, ?_, fun _ => rfl⟩
    · simp [InnerWidget.sectionActivated, hT, heq]
    · have h5 := hinv.tabs
      simp only [InnerWidget.shape] at h5
      rw [h5, if_pos ho]
      rw [← heq] at hidx
      exact hidx
    · intro h; exact absurd heq.symm h

/-- C6 at `widget0` (photos) and index 2: the type becomes File, the active section 2,
and the list is a new one. -/
theorem C6_witness :
    Reachable env0 widget0 ∧ widget0.otherTypes.isSome = true ∧
    ∃ T t, TabIndexToType 2 = some T ∧
      InnerWidget.sectionActivated env0 widget0 2 = some t ∧
      t.type = T ∧ t.otherTabs = some 2 ∧ t.otherTypes.isSome = true ∧
      (T ≠ widget0.type →
        ∃ l, t.list = some l ∧ l.id = widget0.nextListId ∧
          (∀ old, widget0.list = some old → old.id ≠ l.id) ∧
          l.mediaType = T ∧ l.geometry.width = t.width ∧ t.width = widget0.width) ∧
      (T = widget0.type → t = widget0) :=
  ⟨reachable_widget0, rfl,
    C6_sectionActivated env0 widget0 2 reachable_widget0 rfl (Or.inr (Or.inr rfl))⟩

/-- C8: for a memento that passes `validateMementoPeer` and whose type is the current
type, with the list present, `showInternal` returns true and the widget is the previous
one with the state of the memento in the same list: same list object and geometry,
no list constructed, same type, same `_otherTypes`, `_otherTabs` and search field. -/
theorem C8_showInternal_same_type (env : Env) (s : InnerWidget) (m : Memento)
    (l : ListWidget) (hl : s.list = some l)
    (hv : env.validateMementoPeer s.controller m = true)
    (ht : m.mediaType = s.type) :
    ∃ t, InnerWidget.showInternal env s m = some (t, true) ∧
      t = { s with list := some { l with state := m.snapshot } } ∧
      t.list = some { id := l.id, mediaType := l.mediaType, state := m.snapshot,
                      geometry := l.geometry } ∧
      t.nextListId = s.nextListId ∧ t.type = s.type ∧
      t.otherTypes = s.otherTypes ∧ t.otherTabs = s.otherTabs ∧
      t.searchField = s.searchField ∧ t.height = s.height := by
  refine ⟨{ s with list := some { l with state := m.snapshot } }, ?_, rfl, rfl, rfl, rfl,
    rfl, rfl, rfl, rfl⟩
  rw [showInternal_same env s m hv ht, hl]

/-- C8 at `widget0` with a photo memento that carries the state `scrolled`. -/
theorem C8_witness :
    env0.validateMementoPeer widget0.controller (mementoOf MediaType.Photo) = true ∧
    (mementoOf MediaType.Photo).mediaType = widget0.type ∧
    InnerWidget.showInternal env0 widget0 (mementoOf MediaType.Photo) =
      some (widget0Scrolled, true) ∧
    ∃ t, InnerWidget.showInternal env0 widget0 (mementoOf MediaType.Photo) = some (t, true) ∧
      t = { widget0 with
            list := some { id := 0, mediaType := MediaType.Photo, state := scrolled,
                           geometry := { width := 100, height := 900, y := 199 } } } ∧
      t.list = some { id := 0, mediaType := MediaType.Photo, state := scrolled,
                      geometry := { width := 100, height := 900, y := 199 } } ∧
      t.nextListId = widget0.nextListId ∧ t.type = widget0.type ∧
      t.otherTypes = widget0.otherTypes ∧ t.otherTabs = widget0.otherTabs ∧
      t.searchField = widget0.searchField ∧ t.height = widget0.height :=
  ⟨rfl, rfl, rfl,
    C8_showInternal_same_type env0 widget0 (mementoOf MediaType.Photo)
      { id := 0, mediaType := MediaType.Photo, state := ViewSnapshot.empty,
        geometry := { width := 100, height := 900, y := 199 } } rfl rfl rfl⟩

/-- C2 as stated fails: in `widget0` the layout of the other types is present, the
memento for MusicFile passes validation and differs from the current type, and
`showInternal` returns false and leaves the widget as it is; in `widget1` (Embedded
wrap, videos) the memento for Photo, a tab type, passes validation and `showInternal`
returns false as well. -/
theorem C2_counterexample :
    (Reachable env0 widget0 ∧
      env0.validateMementoPeer widget0.controller (mementoOf MediaType.MusicFile) = true ∧
      (mementoOf MediaType.MusicFile).mediaType ≠ widget0.type ∧
      (widget0.otherTypes.isSome = true ∨
        (TypeToTabIndex (mementoOf MediaType.MusicFile).mediaType).isSome = true) ∧
      InnerWidget.showInternal env0 widget0 (mementoOf MediaType.MusicFile) =
        some (widget0, false)) ∧
    (Reachable env0 widget1 ∧
      env0.validateMementoPeer widget1.controller (mementoOf MediaType.Photo) = true ∧
      (mementoOf MediaType.Photo).mediaType ≠ widget1.type ∧
      (widget1.otherTypes.isSome = true ∨
        (TypeToTabIndex (mementoOf MediaType.Photo).mediaType).isSome = true) ∧
      InnerWidget.showInternal env0 widget1 (mementoOf MediaType.Photo) =
        some (widget1, false)) :=
  ⟨⟨reachable_widget0, rfl, by decide, Or.inl rfl, by rfl⟩,
    ⟨reachable_widget1, rfl, by decide, Or.inr rfl, by rfl⟩⟩

/-- C2 as amended: in a reachable state, for a memento that passes validation and whose
type differs from the current type, `showInternal` switches to that type and returns
true when `_otherTypes` is present and the type is a tab type (the result is that of
`switchToTab`; the current type is the type of the memento and the list is a new one of
that type holding the state of the memento), and otherwise returns false and leaves the
widget as it is. -/
theorem C2_showInternal_other_type (env : Env) (s : InnerWidget) (m : Memento)
    (hr : Reachable env s)
    (hv : env.validateMementoPeer s.controller m = true)
    (ht : m.mediaType ≠ s.type) :
    ((s.otherTypes.isSome = true ∧ (TypeToTabIndex m.mediaType).isSome = true) →
      ∃ t l, InnerWidget.showInternal env s m = some (t, true) ∧
        InnerWidget.switchToTab env s m = some t ∧ t.type = m.mediaType ∧
        t.list = some l ∧ l.id = s.nextListId ∧ l.mediaType = m.mediaType ∧
        l.state = m.snapshot) ∧
    (¬ (s.otherTypes.isSome = true ∧ (TypeToTabIndex m.mediaType).isSome = true) →
      InnerWidget.showInternal env s m = some (s, false)) := by
  have hinv := reachable_inv env s hr
  rw [showInternal_other env s m hv ht]
  constructor
  · intro hc
    obtain ⟨t, l, hsw, h1, _, _, _, _, h6, h7, h8, h9, _⟩ :=
      switchToTab_result env s m hinv (fun _ => hc.2)
    refine ⟨t, l, ?_, hsw, h1, h6, h7, h8, h9⟩
    rw [if_pos hc, hsw]
  · intro hc
    rw [if_neg hc]

/-- C2 as amended at `widget0` with a memento for Video: the switch happens. -/
theorem C2_witness :
    Reachable env0 widget0 ∧
    env0.validateMementoPeer widget0.controller (mementoOf MediaType.Video) = true ∧
    (mementoOf MediaType.Video).mediaType ≠ widget0.type ∧
    (widget0.otherTypes.isSome = true ∧
      (TypeToTabIndex (mementoOf MediaType.Video).mediaType).isSome = true) ∧
    (((widget0.otherTypes.isSome = true ∧
        (TypeToTabIndex (mementoOf MediaType.Video).mediaType).isSome = true) →
      ∃ t l, InnerWidget.showInternal env0 widget0 (mementoOf MediaType.Video) = some (t, true) ∧
        InnerWidget.switchToTab env0 widget0 (mementoOf MediaType.Video) = some t ∧
        t.type = (mementoOf MediaType.Video).mediaType ∧
        t.list = some l ∧ l.id = widget0.nextListId ∧
        l.mediaType = (mementoOf MediaType.Video).mediaType ∧
        l.state = (mementoOf MediaType.Video).snapshot) ∧
    (¬ (widget0.otherTypes.isSome = true ∧
        (TypeToTabIndex (mementoOf MediaType.Video).mediaType).isSome = true) →
      InnerWidget.showInternal env0 widget0 (mementoOf MediaType.Video) =
        some (widget0, false))) :=
  ⟨reachable_widget0, rfl, by decide, ⟨rfl, rfl⟩,
    C2_showInternal_other_type env0 widget0 (mementoOf MediaType.Video)
      reachable_widget0 rfl (by decide)⟩

/-- C3 on the code: `widget0Scrolled` shows photos with the list in the state
`scrolled`; the slider emits 1 (Video) and then 0 (Photo); the widget shows photos
again, in a new list whose state is the empty one, not `scrolled`.  Nothing snapshots
the outgoing list: the memento of the switch is a fresh one. -/
theorem C3_round_trip_loses_state :
    widget0Scrolled.list.map ListWidget.state = some scrolled ∧
    (InnerWidget.sectionActivated env0 widget0Scrolled 1).map InnerWidget.type =
      some MediaType.Video ∧
    ((InnerWidget.sectionActivated env0 widget0Scrolled 1).bind
        (fun a => InnerWidget.sectionActivated env0 a 0)).map
      (fun b => (b.type, b.list.map ListWidget.state)) =
      some (MediaType.Photo, some ViewSnapshot.empty) ∧
    ViewSnapshot.empty ≠ scrolled :=
  ⟨rfl, by rfl, by rfl, by decide⟩

/-- C5 on the code: from `widget0` (Side wrap, search field 40 high, list 900 high,
line width 1) the wrap becomes Embedded; afterwards `_otherTypes` and the search field
are absent, the list is 900 high, and the widget has resized itself to 939: the height
was recounted before the search field was removed. -/
theorem C5_height_counts_removed_search_field :
    (InnerWidget.wrapChanged env0 widget0 Wrap.Embedded).map
      (fun t => (t.otherTypes.isSome, t.searchField.isSome, t.height,
        t.list.map (fun l => l.geometry.height))) =
      some (false, false, 939, some 900) := by
  rfl

/-- C10: with the list present (and the shadow present whenever `_otherTypes` is),
`resizeGetHeight` returns; whatever the children do with their heights on the way it
makes exactly one pass of `recountHeight` and does not resize the widget, because a
`refreshHeight` under `_inResize` returns the widget as it is; on return the flag is
clear, and a `refreshHeight` then does recount and resize. -/
theorem C10_resize_not_reentered (env : Env) (s : InnerWidget) (w : Int)
    (hl : s.list.isSome = true)
    (hs : s.otherTypes.isSome = true → s.otherTabsShadow.isSome = true) :
    (∀ u : InnerWidget, u.inResize = true → InnerWidget.refreshHeight env u = some u) ∧
    ∃ t h, InnerWidget.resizeGetHeight env s w = some (t, h) ∧
      t.recounts = s.recounts + 1 ∧ t.height = s.height ∧ t.inResize = false ∧
      ∃ t1 h1, InnerWidget.recountHeight env t = some (t1, h1) ∧
        InnerWidget.refreshHeight env t = some { t1 with height := h1 } ∧
        t1.recounts = t.recounts + 1 := by
  constructor
  · intro u hu
    simp [InnerWidget.refreshHeight, hu]
  · obtain ⟨t, h, ht, hsh, hrc, hht⟩ := resizeGetHeight_total env s w hl hs
    have e := hsh
    simp only [InnerWidget.shape, Shape.mk.injEq] at e
    obtain ⟨t1, h1, hrec⟩ := recountHeight_isSome env t (by
      rw [e.2.2.2.2.2.1, e.2.2.2.2.2.2.1]; exact hs)
    refine ⟨t, h, ht, hrc, hht, e.2.2.1, t1, h1, hrec, ?_,
      (recountHeight_shape env t t1 h1 hrec).2.1⟩
    simp [InnerWidget.refreshHeight, e.2.2.1, hrec]

/-- C10 at `widget0` resized from width 100 to 300, where the list changes its height
from 900 to 700 during the resize. -/
theorem C10_witness :
    widget0.list.isSome = true ∧
    env0.listHeight MediaType.Photo 300 ≠ env0.listHeight MediaType.Photo 100 ∧
    ((∀ u : InnerWidget, u.inResize = true → InnerWidget.refreshHeight env0 u = some u) ∧
    ∃ t h, InnerWidget.resizeGetHeight env0 widget0 300 = some (t, h) ∧
      t.recounts = widget0.recounts + 1 ∧ t.height = widget0.height ∧ t.inResize = false ∧
      ∃ t1 h1, InnerWidget.recountHeight env0 t = some (t1, h1) ∧
        InnerWidget.refreshHeight env0 t = some { t1 with height := h1 } ∧
        t1.recounts = t.recounts + 1) :=
  ⟨rfl, by decide, C10_resize_not_reentered env0 widget0 300 rfl (fun _ => rfl)⟩

end Info.Media
